import Mathlib

/-!
Verification of the C data-interchange boundary declared in
`examples/ffi_demo/src/arlwrap.h` of the algorithm-reference-library
repository.  The header declares fixed-layout structs (ARLVis,
ARLVisEntryP4, ARLGt, Image, ARLConf, ant_t, ARLadvice) and the
prototypes of the wrapped ARL entry points.  We embed:

* the binary layout of the structs (field lists with C sizes, alignment
  and computed offsets, on the LP64 ABI the header targets);
* the entry-point prototype table (name, return type, parameter types
  with const qualification);
* executable models of the operations whose bodies are not part of the
  header (copy, creation, inversion, gain-table application, the
  baseline-count helper); those are modelled from the specification,
  as marked in their doc comments.
-/

/-- Scalar C types appearing as struct-field element types in arlwrap.h. -/
inductive CScalar where
  | double
  | float
  | floatComplex
  | int32
deriving DecidableEq

/-- Byte size of each scalar type on the LP64 ABI the header targets:
`double` is 8 bytes, `float` 4, `float complex` two 4-byte components
(8 bytes), `int` a signed 32-bit quantity (4 bytes). -/
def scalarBytes : CScalar → ℕ
  | .double => 8
  | .float => 4
  | .floatComplex => 8
  | .int32 => 4

/-- Alignment requirement of each scalar type on the same ABI.
`float complex` aligns like its `float` components. -/
def scalarAlign : CScalar → ℕ
  | .double => 8
  | .float => 4
  | .floatComplex => 4
  | .int32 => 4

/-- One struct field: its name, element scalar type, and array length
(1 for a plain field). -/
structure CField where
  fname : String
  ftype : CScalar
  count : ℕ
deriving DecidableEq

/-- Byte size of a field: element size times array length. -/
def CField.bytes (f : CField) : ℕ := scalarBytes f.ftype * f.count

/-- Round `o` up to the next multiple of alignment `a` (C struct member
placement rule). -/
def alignUp (o a : ℕ) : ℕ := ((o + a - 1) / a) * a

/-- Offsets assigned to successive fields starting from byte `o`,
following the C layout rule: each field starts at its element type's
alignment. -/
def fieldOffsetsFrom : ℕ → List CField → List ℕ
  | _, [] => []
  | o, f :: fs =>
      alignUp o (scalarAlign f.ftype) ::
        fieldOffsetsFrom (alignUp o (scalarAlign f.ftype) + f.bytes) fs

/-- Offsets of a struct's fields from the start of the struct. -/
def fieldOffsets (fs : List CField) : List ℕ := fieldOffsetsFrom 0 fs

/-- End of the last field (offset after laying out all fields from `o`). -/
def structEnd : ℕ → List CField → ℕ
  | o, [] => o
  | o, f :: fs => structEnd (alignUp o (scalarAlign f.ftype) + f.bytes) fs

/-- Strictest alignment among the fields. -/
def structAlign (fs : List CField) : ℕ :=
  fs.foldr (fun f a => max (scalarAlign f.ftype) a) 1

/-- Total size of the struct: end of the last field rounded up to the
struct's alignment (C tail-padding rule). -/
def structBytes (fs : List CField) : ℕ :=
  alignUp (structEnd 0 fs) (structAlign fs)

/-- Sum of the raw field sizes, with no padding anywhere. -/
def packedBytes (fs : List CField) : ℕ := (fs.map CField.bytes).sum

/-- The field list of `ARLVisEntryP4` exactly as declared in
arlwrap.h lines 28-39: `double uvw[3]; double time; double freq;
double bw; double intgt; int a1; int a2; float complex vis[4];
float wght[4]; float imgwght[4];`. -/
def arlVisEntryP4Fields : List CField :=
  [ ⟨"uvw", .double, 3⟩,
    ⟨"time", .double, 1⟩,
    ⟨"freq", .double, 1⟩,
    ⟨"bw", .double, 1⟩,
    ⟨"intgt", .double, 1⟩,
    ⟨"a1", .int32, 1⟩,
    ⟨"a2", .int32, 1⟩,
    ⟨"vis", .floatComplex, 4⟩,
    ⟨"wght", .float, 4⟩,
    ⟨"imgwght", .float, 4⟩ ]

/-- C types as they appear in the entry-point parameter and return
positions of arlwrap.h: a few by-value scalars and pointers to a named
pointee, recording whether the pointee is const-qualified. -/
inductive CTy where
  | voidT
  | boolT
  | intT
  | doubleT
  | ptrTo (base : String) (isConst : Bool)
deriving DecidableEq

/-- One declared entry point: its name, return type and parameter
types in order. -/
structure CPrototype where
  pname : String
  ret : CTy
  params : List CTy
deriving DecidableEq

/-- The entry-point prototype table of arlwrap.h (lines 41-43 and
90-132), transcribed in declaration order.  `arl_invert_function` is
declared twice in the header (lines 120 and 125) with the same
signature; it appears once here.  The initialization routine is the
last entry. -/
def headerPrototypes : List CPrototype :=
  [ ⟨"arl_copy_visibility", .voidT,
      [.ptrTo "ARLVis" true, .ptrTo "ARLVis" false, .boolT]⟩,
    ⟨"helper_get_image_shape", .voidT,
      [.ptrTo "double" true, .doubleT, .ptrTo "int" false]⟩,
    ⟨"helper_get_image_shape_multifreq", .voidT,
      [.ptrTo "ARLConf" false, .doubleT, .intT, .ptrTo "int" false]⟩,
    ⟨"helper_get_nbases", .voidT,
      [.ptrTo "char" false, .ptrTo "ant_t" false]⟩,
    ⟨"helper_set_image_params", .voidT,
      [.ptrTo "ARLVis" true, .ptrTo "Image" false]⟩,
    ⟨"arl_create_visibility", .voidT,
      [.ptrTo "ARLConf" false, .ptrTo "ARLVis" false]⟩,
    ⟨"arl_create_blockvisibility", .voidT,
      [.ptrTo "ARLConf" false, .ptrTo "ARLVis" false]⟩,
    ⟨"arl_advise_wide_field", .voidT,
      [.ptrTo "ARLConf" false, .ptrTo "ARLVis" false, .ptrTo "ARLadvice" false]⟩,
    ⟨"arl_create_test_image", .voidT,
      [.ptrTo "double" true, .doubleT, .ptrTo "char" false, .ptrTo "Image" false]⟩,
    ⟨"arl_create_low_test_image_from_gleam", .voidT,
      [.ptrTo "ARLConf" false, .doubleT, .intT, .ptrTo "char" false, .ptrTo "Image" false]⟩,
    ⟨"arl_predict_2d", .voidT,
      [.ptrTo "ARLVis" true, .ptrTo "Image" true, .ptrTo "ARLVis" false]⟩,
    ⟨"arl_invert_2d", .voidT,
      [.ptrTo "ARLVis" true, .ptrTo "Image" true, .boolT, .ptrTo "Image" false,
       .ptrTo "double" false]⟩,
    ⟨"arl_create_image_from_visibility", .voidT,
      [.ptrTo "ARLVis" true, .ptrTo "Image" false]⟩,
    ⟨"arl_create_image_from_blockvisibility", .voidT,
      [.ptrTo "ARLConf" false, .ptrTo "ARLVis" true, .doubleT, .intT,
       .ptrTo "char" false, .ptrTo "Image" false]⟩,
    ⟨"arl_deconvolve_cube", .voidT,
      [.ptrTo "Image" false, .ptrTo "Image" false, .ptrTo "Image" false,
       .ptrTo "Image" false]⟩,
    ⟨"arl_restore_cube", .voidT,
      [.ptrTo "Image" false, .ptrTo "Image" false, .ptrTo "Image" false,
       .ptrTo "Image" false]⟩,
    ⟨"arl_predict_function", .voidT,
      [.ptrTo "ARLConf" false, .ptrTo "ARLVis" true, .ptrTo "Image" true,
       .ptrTo "ARLVis" false, .ptrTo "ARLVis" false, .ptrTo "long long int" false]⟩,
    ⟨"arl_invert_function", .voidT,
      [.ptrTo "ARLConf" false, .ptrTo "ARLVis" true, .ptrTo "Image" false, .intT,
       .ptrTo "Image" false]⟩,
    ⟨"arl_ical", .voidT,
      [.ptrTo "ARLConf" false, .ptrTo "ARLVis" true, .ptrTo "Image" false, .intT,
       .ptrTo "Image" false, .ptrTo "Image" false, .ptrTo "Image" false]⟩,
    ⟨"arl_convert_visibility_to_blockvisibility", .voidT,
      [.ptrTo "ARLConf" false, .ptrTo "ARLVis" true, .ptrTo "ARLVis" true,
       .ptrTo "long long int" false, .ptrTo "ARLVis" false]⟩,
    ⟨"arl_create_gaintable_from_blockvisibility", .voidT,
      [.ptrTo "ARLConf" false, .ptrTo "ARLVis" true, .ptrTo "ARLGt" false]⟩,
    ⟨"arl_predict_function_blockvis", .voidT,
      [.ptrTo "ARLConf" false, .ptrTo "ARLVis" false, .ptrTo "Image" true]⟩,
    ⟨"arl_simulate_gaintable", .voidT,
      [.ptrTo "ARLConf" false, .ptrTo "ARLGt" false]⟩,
    ⟨"arl_apply_gaintable", .voidT,
      [.ptrTo "ARLConf" false, .ptrTo "ARLVis" true, .ptrTo "ARLGt" false,
       .ptrTo "ARLVis" false]⟩,
    ⟨"arl_initialize", .voidT, []⟩ ]

/-- Look up a declared prototype by its C name. -/
def lookupProto (n : String) : Option CPrototype :=
  headerPrototypes.find? (fun p => p.pname = n)

/-- Does the parameter type point to the named base type? -/
def isPtrToBase (b : String) : CTy → Bool
  | .ptrTo b' _ => b' = b
  | _ => false

/-- Claim C1: the ARLVisEntryP4 record declares, in exactly this order
and with exactly these sizes: 3 doubles (baseline coordinates), one
double each for time, frequency, bandwidth and integration time, two
signed 32-bit antenna indices, 4 complex values of 32-bit-float
components, 4 32-bit-float weights and 4 32-bit-float image-weights.
The record is fixed-size and its C layout has no padding at all (every
field offset is the packed offset and the total size equals the sum of
the field sizes, 128 bytes), so the opaque buffer can be reinterpreted
without copying. -/
theorem arlVisEntryP4_layout :
    (arlVisEntryP4Fields.map (fun f => (f.fname, f.ftype, f.count)) =
      [("uvw", CScalar.double, 3), ("time", CScalar.double, 1),
       ("freq", CScalar.double, 1), ("bw", CScalar.double, 1),
       ("intgt", CScalar.double, 1), ("a1", CScalar.int32, 1),
       ("a2", CScalar.int32, 1), ("vis", CScalar.floatComplex, 4),
       ("wght", CScalar.float, 4), ("imgwght", CScalar.float, 4)]) ∧
    scalarBytes CScalar.double = 8 ∧
    scalarBytes CScalar.int32 = 4 ∧
    scalarBytes CScalar.floatComplex = 8 ∧
    scalarBytes CScalar.float = 4 ∧
    fieldOffsets arlVisEntryP4Fields = [0, 24, 32, 40, 48, 56, 60, 64, 96, 112] ∧
    structBytes arlVisEntryP4Fields = 128 ∧
    structBytes arlVisEntryP4Fields = packedBytes arlVisEntryP4Fields := by
  decide

/-- Claim C2: every entry point declared in arlwrap.h — construction,
advisory, transform, calibration and initialization alike — returns
void, so no call can report failure through its return value; results
flow only through output parameters. -/
theorem all_prototypes_return_void :
    ∀ p ∈ headerPrototypes, p.ret = CTy.voidT := by
  decide

/-- Witness for the void-return theorem at the concrete initialization
prototype, the last entry of the table. -/
theorem all_prototypes_return_void_witness :
    (⟨"arl_initialize", CTy.voidT, []⟩ : CPrototype) ∈ headerPrototypes ∧
    (⟨"arl_initialize", CTy.voidT, []⟩ : CPrototype).ret = CTy.voidT :=
  ⟨by decide,
   all_prototypes_return_void ⟨"arl_initialize", CTy.voidT, []⟩ (by decide)⟩

/-!
Typed models of the containers.  The operation bodies live in the
backend (arlwrap.c and the ARL Python package), which is not part of
the header; those operations are modelled from the specification, as
marked in their doc comments.  Machine doubles/floats are modelled by
rationals, C `int` by integers, `size_t` by naturals.
-/

/-- The 4-polarisation visibility record viewed through its declared
fields (arlwrap.h lines 28-39): baseline coordinates, time, frequency,
bandwidth, integration time, the two antenna indices, and four
complex visibilities, weights and image-weights. -/
structure VisEntryP4 where
  uvw : Fin 3 → ℚ
  time : ℚ
  freq : ℚ
  bw : ℚ
  intgt : ℚ
  a1 : ℤ
  a2 : ℤ
  vis : Fin 4 → ℚ × ℚ
  wght : Fin 4 → ℚ
  imgwght : Fin 4 → ℚ
deriving DecidableEq

/-- The record whose every field is the zero value. -/
def zeroEntryP4 : VisEntryP4 :=
  ⟨fun _ => 0, 0, 0, 0, 0, 0, 0, fun _ => (0, 0), fun _ => 0, fun _ => 0⟩

/-- The Visibility Container (arlwrap.h lines 14-22) in its
4-polarisation reading: the header's comment says that when npol is 4
the opaque `data` buffer is an `ARLVisEntryP4[nvis]` array, so `data`
is a list of typed records here.  `nvis` is the sample count
(`size_t`), `npol` the polarisation discriminator (`int`),
`phasecentre` the side-band metadata string. -/
structure ARLVis4 where
  nvis : ℕ
  npol : ℤ
  data : List VisEntryP4
  phasecentre : String
deriving DecidableEq

/-- The Gain Table Container (arlwrap.h lines 46-49): a row count and
an opaque buffer of per-antenna/per-time solutions, modelled as complex
gains. -/
structure ARLGt where
  nrows : ℕ
  data : List (ℚ × ℚ)
deriving DecidableEq

/-- The Image Container (arlwrap.h lines 51-57): element count
(`size_t size`), the 4-element shape vector (`int data_shape[4]`), the
pixel buffer, and the two metadata strings. -/
structure Image where
  size : ℕ
  data_shape : Fin 4 → ℕ
  data : List ℚ
  wcs : String
  polarisation_frame : String

/-- Product of the 4 components of an image shape vector. -/
def shapeProd (s : Fin 4 → ℕ) : ℕ := s 0 * s 1 * s 2 * s 3

/-- The Configuration Descriptor (arlwrap.h lines 59-75): observation
name, pointing direction, the three parallel arrays with their counts,
and the scalar counts. -/
structure ARLConf where
  confname : String
  pc_ra : ℚ
  pc_dec : ℚ
  times : List ℚ
  ntimes : ℤ
  freqs : List ℚ
  nfreqs : ℤ
  channel_bandwidth : List ℚ
  nchanwidth : ℤ
  nbases : ℤ
  nant : ℤ
  npol : ℤ
  nrec : ℤ
  rmax : ℚ
  polframe : String
deriving DecidableEq

/-- The ant_t auxiliary scalar descriptor (arlwrap.h line 77). -/
structure ant_t where
  nant : ℤ
  nbases : ℤ
deriving DecidableEq

/-- The ARLadvice scalar bundle (arlwrap.h lines 79-86). -/
structure ARLadvice where
  vis_slices : ℤ
  npixel : ℤ
  cellsize : ℚ
  guard_band_image : ℚ
  delA : ℚ
  wprojection_planes : ℤ
deriving DecidableEq

/-- Modelled from the spec: arl_copy_visibility (declared arlwrap.h
lines 41-43, body in the backend).  With the zero flag unset it
deep-copies every per-sample field of the source, together with the
shape and metadata, into the destination; with the flag set it
duplicates shape and metadata but writes the zero record in place of
each sample payload.  The result is the destination container as left
by the call (the pre-call destination contents are overwritten, hence
unused). -/
def arl_copy_visibility (visin : ARLVis4) (_visout : ARLVis4) (zero : Bool) :
    ARLVis4 :=
  { nvis := visin.nvis
    npol := visin.npol
    phasecentre := visin.phasecentre
    data := if zero then visin.data.map (fun _ => zeroEntryP4) else visin.data }

/-- Claim C3: for a source container and a destination pre-sized to the
same sample and polarisation counts, arl_copy_visibility with the zero
flag unset makes every field of every destination record (weights and
image-weights included) equal the corresponding source field, and
copies the shape and metadata; with the zero flag set, the
destination's shape and metadata match the source but every per-sample
payload record is the zero record. -/
theorem copy_visibility_spec (visin visout : ARLVis4)
    (hn : visout.nvis = visin.nvis) (hp : visout.npol = visin.npol) :
    ((arl_copy_visibility visin visout false).data = visin.data ∧
     (arl_copy_visibility visin visout false).nvis = visin.nvis ∧
     (arl_copy_visibility visin visout false).npol = visin.npol ∧
     (arl_copy_visibility visin visout false).phasecentre = visin.phasecentre) ∧
    ((arl_copy_visibility visin visout true).nvis = visin.nvis ∧
     (arl_copy_visibility visin visout true).npol = visin.npol ∧
     (arl_copy_visibility visin visout true).phasecentre = visin.phasecentre ∧
     (arl_copy_visibility visin visout true).data.length = visin.data.length ∧
     ∀ e ∈ (arl_copy_visibility visin visout true).data, e = zeroEntryP4) := by
  refine ⟨⟨rfl, rfl, rfl, rfl⟩, rfl, rfl, rfl, ?_, ?_⟩
  · simp [arl_copy_visibility]
  · intro e he
    simp only [arl_copy_visibility, if_pos] at he
    rcases List.mem_map.mp he with ⟨x, _, hx⟩
    exact hx.symm

/-- A concrete one-sample container used by the copy witness. -/
def sampleEntry : VisEntryP4 :=
  ⟨fun _ => 1, 2, 3, 4, 5, 0, 1, fun _ => (6, 7), fun _ => 8, fun _ => 9⟩

/-- A concrete source container with one 4-polarisation sample. -/
def sampleVis : ARLVis4 := ⟨1, 4, [sampleEntry], "pc"⟩

/-- A same-shaped destination container for the copy witness. -/
def sampleVisOut : ARLVis4 := ⟨1, 4, [zeroEntryP4], "pc"⟩

/-- Witness for the copy theorem at the concrete one-sample containers. -/
theorem copy_visibility_spec_witness :
    sampleVisOut.nvis = sampleVis.nvis ∧ sampleVisOut.npol = sampleVis.npol ∧
    (((arl_copy_visibility sampleVis sampleVisOut false).data = sampleVis.data ∧
      (arl_copy_visibility sampleVis sampleVisOut false).nvis = sampleVis.nvis ∧
      (arl_copy_visibility sampleVis sampleVisOut false).npol = sampleVis.npol ∧
      (arl_copy_visibility sampleVis sampleVisOut false).phasecentre = sampleVis.phasecentre) ∧
     ((arl_copy_visibility sampleVis sampleVisOut true).nvis = sampleVis.nvis ∧
      (arl_copy_visibility sampleVis sampleVisOut true).npol = sampleVis.npol ∧
      (arl_copy_visibility sampleVis sampleVisOut true).phasecentre = sampleVis.phasecentre ∧
      (arl_copy_visibility sampleVis sampleVisOut true).data.length = sampleVis.data.length ∧
      ∀ e ∈ (arl_copy_visibility sampleVis sampleVisOut true).data, e = zeroEntryP4)) :=
  ⟨rfl, rfl, copy_visibility_spec sampleVis sampleVisOut rfl rfl⟩

/-!
Generic (any polarisation count) view of the visibility buffer, used
for the sizing invariant.  The header fixes the 4-polarisation record
layout; the spec leaves the 1- and 2-polarisation layouts open, noting
only that each polarisation count selects one fixed record size.
-/

/-- Per-sample visibility record for an arbitrary polarisation count:
the fixed header fields of ARLVisEntryP4 plus one complex visibility,
one weight and one image-weight per polarisation. -/
structure VisRecord where
  uvw : Fin 3 → ℚ
  time : ℚ
  freq : ℚ
  bw : ℚ
  intgt : ℚ
  a1 : ℤ
  a2 : ℤ
  vis : List (ℚ × ℚ)
  wght : List ℚ
  imgwght : List ℚ

/-- Byte footprint of a record: the fixed fields of the declared
4-polarisation layout (3 doubles, 4 doubles, 2 ints) plus 8 bytes per
complex visibility, 4 per weight and 4 per image-weight. -/
def VisRecord.byteCount (r : VisRecord) : ℕ :=
  8 * 3 + 8 + 8 + 8 + 8 + 4 + 4 +
    8 * r.vis.length + 4 * r.wght.length + 4 * r.imgwght.length

/-- The zeroed record with `p` polarisation slots. -/
def defaultRecord (p : ℕ) : VisRecord :=
  ⟨fun _ => 0, 0, 0, 0, 0, 0, 0,
    List.replicate p (0, 0), List.replicate p 0, List.replicate p 0⟩

/-- Modelled from the spec: the per-sample record size selected by the
polarisation count.  For p = 4 this is the declared ARLVisEntryP4
layout (128 bytes); the spec leaves the 1- and 2-polarisation record
layouts open ("referenced but not specified"), so their sizes here are
the sizes of the per-polarisation scaling of the same fields — the
sizing invariant proved below does not depend on that choice. -/
def recordSize (p : ℕ) : ℕ := 64 + 16 * p

/-- The Visibility Container in its generic reading: sample count,
polarisation count, optional buffer of per-sample records (`none`
models a null `data` pointer), metadata string. -/
structure ARLVisBuf where
  nvis : ℕ
  npol : ℕ
  data : Option (List VisRecord)
  phasecentre : String

/-- Modelled from the spec: the buffer a creation operation allocates
for n samples of polarisation count p — exactly n contiguous records
of the record size selected by p. -/
def mkVisibilityBuf (n p : ℕ) : ARLVisBuf :=
  ⟨n, p, some (List.replicate n (defaultRecord p)), ""⟩

/-- Modelled from the spec: sample count of the container
arl_create_visibility builds from a configuration — one sample per
baseline, time and frequency channel. -/
def nvisOf (conf : ARLConf) : ℕ :=
  conf.nbases.toNat * conf.ntimes.toNat * conf.nfreqs.toNat

/-- Modelled from the spec: arl_create_visibility (arlwrap.h line 99,
body in the backend) reads the configuration and fills the output
container with a freshly allocated buffer; the configuration component
of the result is the configuration as left by the call. -/
def arl_create_visibility (conf : ARLConf) : ARLConf × ARLVisBuf :=
  (conf, mkVisibilityBuf (nvisOf conf) conf.npol.toNat)

/-- Modelled from the spec: arl_create_blockvisibility (arlwrap.h
line 100), as arl_create_visibility but block-structured; the block
structure is internal to the backend, so the boundary model is the
same. -/
def arl_create_blockvisibility (conf : ARLConf) : ARLConf × ARLVisBuf :=
  (conf, mkVisibilityBuf (nvisOf conf) conf.npol.toNat)

/-- Claim C5: for every sample count n and polarisation count
p ∈ {1, 2, 4}, the container built with n samples and p polarisations
has a non-null buffer holding exactly n contiguous per-sample records
of the record size selected by p, and for p = 4 that record size is
the size of the declared ARLVisEntryP4 layout. -/
theorem create_visibility_buffer_sized (n p : ℕ)
    (hp : p = 1 ∨ p = 2 ∨ p = 4) :
    ∃ rs, (mkVisibilityBuf n p).data = some rs ∧
      rs.length = n ∧
      (∀ r ∈ rs, r.byteCount = recordSize p) ∧
      (mkVisibilityBuf n p).nvis = n ∧
      (mkVisibilityBuf n p).npol = p ∧
      recordSize 4 = structBytes arlVisEntryP4Fields := by
  clear hp
  refine ⟨List.replicate n (defaultRecord p), rfl, List.length_replicate .., ?_, rfl, rfl, by decide⟩
  intro r hr
  rw [List.eq_of_mem_replicate hr]
  simp [VisRecord.byteCount, defaultRecord, recordSize]
  ring

/-- Witness for the sizing theorem at n = 2 samples, p = 4
polarisations. -/
theorem create_visibility_buffer_sized_witness :
    ((4 : ℕ) = 1 ∨ (4 : ℕ) = 2 ∨ (4 : ℕ) = 4) ∧
    ∃ rs, (mkVisibilityBuf 2 4).data = some rs ∧
      rs.length = 2 ∧
      (∀ r ∈ rs, r.byteCount = recordSize 4) ∧
      (mkVisibilityBuf 2 4).nvis = 2 ∧
      (mkVisibilityBuf 2 4).npol = 4 ∧
      recordSize 4 = structBytes arlVisEntryP4Fields :=
  ⟨Or.inr (Or.inr rfl), create_visibility_buffer_sized 2 4 (Or.inr (Or.inr rfl))⟩

/-- Modelled from the spec: the canonical image constructor used by
every image-producing operation — the shape vector is stored, the
declared element count is the product of its 4 components, and the
pixel buffer is allocated with that many elements.  Pixel values are
backend-defined numerics, out of scope of the boundary, so they are
initialised to zero here. -/
def mkImage (s : Fin 4 → ℕ) (w pf : String) : Image :=
  ⟨shapeProd s, s, List.replicate (shapeProd s) 0, w, pf⟩

/-- Modelled from the spec: the image shape a parameter-derivation
operation infers from a visibility container — polarisation axis from
the container's polarisation count, one spectral channel, and two
spatial axes whose pixel count is a backend choice (a fixed model value
here; the shape invariant does not depend on it). -/
def imageShapeOfVis (v : ARLVis4) : Fin 4 → ℕ :=
  ![v.npol.toNat, 1, 256, 256]

/-- Modelled from the spec: helper_set_image_params (arlwrap.h
line 97) derives an image's shape and element count from a populated
visibility container, keeping the output image's metadata strings. -/
def helper_set_image_params (vis : ARLVis4) (img : Image) : Image :=
  mkImage (imageShapeOfVis vis) img.wcs img.polarisation_frame

/-- Sum of all weight components over all samples of a container. -/
def weightSum (v : ARLVis4) : ℚ :=
  (v.data.map (fun e => e.wght 0 + e.wght 1 + e.wght 2 + e.wght 3)).sum

/-- Modelled from the spec: arl_invert_2d (arlwrap.h line 110) reads a
const visibility container and a const model image, and writes a
result image of the model's shape and the sum of weights through the
caller's double pointer.  The first component returns the two const
inputs as left by the call; the inversion's pixel values are
backend-defined numerics, out of scope of the boundary (the dopsf flag
selects which numerics run, so it does not affect the boundary
model). -/
def arl_invert_2d (visin : ARLVis4) (img_in : Image) (_dopsf : Bool) :
    (ARLVis4 × Image) × (Image × ℚ) :=
  ((visin, img_in),
   (mkImage img_in.data_shape img_in.wcs img_in.polarisation_frame,
    weightSum visin))

/-- Modelled from the spec: arl_deconvolve_cube (arlwrap.h lines
114-115) writes a restored and a residual image of the dirty image's
shape; the CLEAN numerics are out of scope of the boundary. -/
def arl_deconvolve_cube (dirty _psf : Image) : Image × Image :=
  (mkImage dirty.data_shape dirty.wcs dirty.polarisation_frame,
   mkImage dirty.data_shape dirty.wcs dirty.polarisation_frame)

/-- Modelled from the spec: arl_restore_cube (arlwrap.h lines 116-117)
writes a restored image of the model image's shape. -/
def arl_restore_cube (model _psf _residual : Image) : Image :=
  mkImage model.data_shape model.wcs model.polarisation_frame

/-- Claim C4: every Image Container produced by the modelled image
operations (the canonical constructor, parameter derivation from a
visibility container, 2-D inversion, deconvolution and restoration)
has a declared element count equal to the product of the 4 components
of its shape vector; in particular the shape (1, 1, 4, 4) yields
element count 16. -/
theorem image_shape_invariant :
    (∀ s w pf, (mkImage s w pf).size = shapeProd (mkImage s w pf).data_shape) ∧
    (∀ vis img, (helper_set_image_params vis img).size =
      shapeProd (helper_set_image_params vis img).data_shape) ∧
    (∀ visin img_in dopsf, ((arl_invert_2d visin img_in dopsf).2.1).size =
      shapeProd ((arl_invert_2d visin img_in dopsf).2.1).data_shape) ∧
    (∀ dirty psf, ((arl_deconvolve_cube dirty psf).1).size =
      shapeProd ((arl_deconvolve_cube dirty psf).1).data_shape ∧
      ((arl_deconvolve_cube dirty psf).2).size =
      shapeProd ((arl_deconvolve_cube dirty psf).2).data_shape) ∧
    (∀ model psf residual, (arl_restore_cube model psf residual).size =
      shapeProd (arl_restore_cube model psf residual).data_shape) ∧
    (mkImage ![1, 1, 4, 4] "wcs" "stokesI").size = 16 :=
  ⟨fun _ _ _ => rfl, fun _ _ => rfl, fun _ _ _ => rfl,
   fun _ _ => ⟨rfl, rfl⟩, fun _ _ _ => rfl, rfl⟩

/-- Parameter list of a declared entry point (empty when the name is
not declared). -/
def protoParams (n : String) : List CTy :=
  (lookupProto n).elim [] CPrototype.params

/-- Claim C10: arl_invert_2d takes a const visibility container and a
const model image, a by-value psf flag, and writes its results through
the non-const output image pointer and the caller-supplied double
pointer sumwt (the last parameter); the modelled operation returns
both const inputs unchanged and produces the sum of the container's
weights as the sumwt value. -/
theorem invert_2d_produces_sumwt :
    lookupProto "arl_invert_2d" =
      some ⟨"arl_invert_2d", CTy.voidT,
        [CTy.ptrTo "ARLVis" true, CTy.ptrTo "Image" true, CTy.boolT,
         CTy.ptrTo "Image" false, CTy.ptrTo "double" false]⟩ ∧
    (protoParams "arl_invert_2d").getLast? = some (CTy.ptrTo "double" false) ∧
    (∀ visin img_in dopsf,
      (arl_invert_2d visin img_in dopsf).1.1 = visin ∧
      (arl_invert_2d visin img_in dopsf).1.2 = img_in ∧
      (arl_invert_2d visin img_in dopsf).2.2 = weightSum visin) :=
  ⟨by decide, by decide, fun _ _ _ => ⟨rfl, rfl, rfl⟩⟩

/-- Complex multiplication on rational pairs. -/
def cmul (a b : ℚ × ℚ) : ℚ × ℚ :=
  (a.1 * b.1 - a.2 * b.2, a.1 * b.2 + a.2 * b.1)

/-- Apply one complex gain to a sample: the four visibility values are
multiplied by the gain; all other fields are untouched. -/
def applyGainEntry (g : ℚ × ℚ) (e : VisEntryP4) : VisEntryP4 :=
  { e with vis := fun i => cmul g (e.vis i) }

/-- Modelled from the spec: number of gain-table rows for a
configuration — one solution per antenna and time sample. -/
def gtRowsOf (conf : ARLConf) : ℕ := conf.nant.toNat * conf.ntimes.toNat

/-- Modelled from the spec: arl_create_gaintable_from_blockvisibility
(arlwrap.h line 123) derives a gain table from the configuration and
the observed visibility container; the solved gain values are
backend-defined numerics, out of scope of the boundary (unit gains
here).  The configuration component of the result is the configuration
as left by the call. -/
def arl_create_gaintable_from_blockvisibility (conf : ARLConf)
    (_visin : ARLVis4) : ARLConf × ARLGt :=
  (conf, ⟨gtRowsOf conf, List.replicate (gtRowsOf conf) (1, 0)⟩)

/-- Modelled from the spec: arl_simulate_gaintable (arlwrap.h
line 127) fills the output gain table from the configuration alone;
the simulated gain values are backend-defined numerics (unit gains
here). -/
def arl_simulate_gaintable (conf : ARLConf) (_gt : ARLGt) :
    ARLConf × ARLGt :=
  (conf, ⟨gtRowsOf conf, List.replicate (gtRowsOf conf) (1, 0)⟩)

/-- Modelled from the spec: arl_apply_gaintable (arlwrap.h line 128)
multiplies each visibility sample by the corresponding gain-table
solution and writes the result into an output container of the input's
shape and metadata. -/
def arl_apply_gaintable (conf : ARLConf) (visin : ARLVis4) (gt : ARLGt) :
    ARLConf × ARLVis4 :=
  (conf,
   { nvis := visin.nvis
     npol := visin.npol
     phasecentre := visin.phasecentre
     data := visin.data.enum.map (fun ie => applyGainEntry (gt.data.getD ie.1 (1, 0)) ie.2) })

/-- Modelled from the spec: arl_advise_wide_field (arlwrap.h line 101)
reads the configuration and the visibility container and fills the
advice bundle; the recommended values are backend-defined numerics, so
the bundle passes through the model unchanged. -/
def arl_advise_wide_field (conf : ARLConf) (_vis : ARLVisBuf)
    (adv : ARLadvice) : ARLConf × ARLadvice :=
  (conf, adv)

/-- Modelled from the spec: helper_get_image_shape_multifreq
(arlwrap.h lines 93-94) fills the 4-element shape from the
configuration's polarisation and channel counts and the requested
pixel count. -/
def helper_get_image_shape_multifreq (conf : ARLConf) (_cellsize : ℚ)
    (npixel : ℤ) : ARLConf × (Fin 4 → ℕ) :=
  (conf, ![conf.nfreqs.toNat, conf.npol.toNat, npixel.toNat, npixel.toNat])

/-- Modelled from the spec: arl_create_low_test_image_from_gleam
(arlwrap.h lines 105-106) reads the configuration and fills the output
image from the GLEAM catalogue at the requested pixel count; the pixel
values are backend-defined numerics, out of scope of the boundary. -/
def arl_create_low_test_image_from_gleam (conf : ARLConf) (_cellsize : ℚ)
    (npixel : ℤ) (phasecentre : String) : ARLConf × Image :=
  (conf,
   mkImage ![conf.nfreqs.toNat, conf.npol.toNat, npixel.toNat, npixel.toNat]
     phasecentre conf.polframe)

/-- Modelled from the spec: arl_create_image_from_blockvisibility
(arlwrap.h line 113) reads the configuration and a const block
visibility container and fills the output model image at the requested
pixel count. -/
def arl_create_image_from_blockvisibility (conf : ARLConf)
    (_blockvis : ARLVis4) (_cellsize : ℚ) (npixel : ℤ)
    (phasecentre : String) : ARLConf × Image :=
  (conf,
   mkImage ![conf.nfreqs.toNat, conf.npol.toNat, npixel.toNat, npixel.toNat]
     phasecentre conf.polframe)

/-- Modelled from the spec: arl_predict_function (arlwrap.h line 119)
reads the configuration, a const visibility container and a const model
image, and writes a predicted visibility container, a block form of it
and a conversion index; the predicted values are backend-defined
numerics, out of scope of the boundary, so the output containers carry
the input's shape and metadata and the index is the model's zero. -/
def arl_predict_function (conf : ARLConf) (visin : ARLVis4) (_img : Image) :
    ARLConf × (ARLVis4 × ARLVis4 × ℤ) :=
  (conf, (visin, visin, 0))

/-- Modelled from the spec: arl_invert_function (arlwrap.h lines 120
and 125) reads the configuration, a const visibility container and the
model image, and writes a dirty image of the model's shape; the
inversion numerics are out of scope of the boundary. -/
def arl_invert_function (conf : ARLConf) (_visin : ARLVis4)
    (img_model : Image) (_vis_slices : ℤ) : ARLConf × Image :=
  (conf, mkImage img_model.data_shape img_model.wcs img_model.polarisation_frame)

/-- Modelled from the spec: arl_ical (arlwrap.h line 121) reads the
configuration, a const visibility container and the model image, and
writes the deconvolved, residual and restored images of the model's
shape; the self-calibration numerics are out of scope of the
boundary. -/
def arl_ical (conf : ARLConf) (_visin : ARLVis4) (img_model : Image)
    (_vis_slices : ℤ) : ARLConf × (Image × Image × Image) :=
  (conf,
   (mkImage img_model.data_shape img_model.wcs img_model.polarisation_frame,
    mkImage img_model.data_shape img_model.wcs img_model.polarisation_frame,
    mkImage img_model.data_shape img_model.wcs img_model.polarisation_frame))

/-- Modelled from the spec: arl_convert_visibility_to_blockvisibility
(arlwrap.h line 122) reads the configuration, the const visibility and
block-visibility containers and the conversion index, and writes the
converted container; the regrouping is internal to the backend, so the
boundary model preserves the input container's samples and metadata. -/
def arl_convert_visibility_to_blockvisibility (conf : ARLConf)
    (visin : ARLVis4) (_blockvisin : ARLVis4) (_cindexin : ℤ) :
    ARLConf × ARLVis4 :=
  (conf, visin)

/-- Modelled from the spec: arl_predict_function_blockvis (arlwrap.h
line 124) reads the configuration and a const model image and writes
the prediction into the passed block visibility container in place;
the predicted values are backend-defined numerics, out of scope of the
boundary, so the container keeps its shape and metadata. -/
def arl_predict_function_blockvis (conf : ARLConf) (blockvis : ARLVis4)
    (_img : Image) : ARLConf × ARLVis4 :=
  (conf, blockvis)

/-- Field-by-field equality of two Configuration Descriptors: every
one of the 15 declared fields of ARLConf coincides. -/
def ARLConf.fieldsEq (a b : ARLConf) : Prop :=
  a.confname = b.confname ∧ a.pc_ra = b.pc_ra ∧ a.pc_dec = b.pc_dec ∧
  a.times = b.times ∧ a.ntimes = b.ntimes ∧ a.freqs = b.freqs ∧
  a.nfreqs = b.nfreqs ∧ a.channel_bandwidth = b.channel_bandwidth ∧
  a.nchanwidth = b.nchanwidth ∧ a.nbases = b.nbases ∧ a.nant = b.nant ∧
  a.npol = b.npol ∧ a.nrec = b.nrec ∧ a.rmax = b.rmax ∧
  a.polframe = b.polframe

/-- Claim C7: every operation of the header that takes a Configuration
Descriptor — all 14 of them: multi-frequency shape inference, creation
of visibilities and block visibilities, wide-field advice, the GLEAM
test image, image creation from a block visibility, the prediction,
inversion and self-calibration transforms, visibility-to-block
conversion, gain-table derivation, in-place block prediction,
gain-table simulation and gain-table application — leaves every field
of the descriptor (name, pointing direction, the three parallel arrays
and their counts, nbases, nant, npol, nrec, rmax, polframe) unchanged
after the call.  (The baseline/antenna-count helper is the documented
exception and does not read an ARLConf at all: its inputs are a
configuration name and an ant_t descriptor.) -/
theorem conf_unchanged_by_operations (conf : ARLConf) (vb : ARLVisBuf)
    (adv : ARLadvice) (v4 bv4 : ARLVis4) (gt : ARLGt) (img : Image)
    (cs : ℚ) (np nslices cidx : ℤ) (pc : String) :
    ((helper_get_image_shape_multifreq conf cs np).1.fieldsEq conf) ∧
    ((arl_create_visibility conf).1.fieldsEq conf) ∧
    ((arl_create_blockvisibility conf).1.fieldsEq conf) ∧
    ((arl_advise_wide_field conf vb adv).1.fieldsEq conf) ∧
    ((arl_create_low_test_image_from_gleam conf cs np pc).1.fieldsEq conf) ∧
    ((arl_create_image_from_blockvisibility conf bv4 cs np pc).1.fieldsEq conf) ∧
    ((arl_predict_function conf v4 img).1.fieldsEq conf) ∧
    ((arl_invert_function conf v4 img nslices).1.fieldsEq conf) ∧
    ((arl_ical conf v4 img nslices).1.fieldsEq conf) ∧
    ((arl_convert_visibility_to_blockvisibility conf v4 bv4 cidx).1.fieldsEq conf) ∧
    ((arl_create_gaintable_from_blockvisibility conf v4).1.fieldsEq conf) ∧
    ((arl_predict_function_blockvis conf bv4 img).1.fieldsEq conf) ∧
    ((arl_simulate_gaintable conf gt).1.fieldsEq conf) ∧
    ((arl_apply_gaintable conf v4 gt).1.fieldsEq conf) := by
  refine ⟨?_, ?_, ?_, ?_, ?_, ?_, ?_, ?_, ?_, ?_, ?_, ?_, ?_, ?_⟩ <;>
    exact ⟨rfl, rfl, rfl, rfl, rfl, rfl, rfl, rfl, rfl, rfl, rfl, rfl, rfl, rfl, rfl⟩

/-- Modelled from the spec: number of baselines formed by nant
antennas — the pairwise antenna combinations. -/
def nbasesOfNant (nant : ℕ) : ℕ := nant * (nant - 1) / 2

/-- Modelled from the spec: helper_get_nbases (arlwrap.h line 96)
looks the named array configuration up in the backend's catalogue
(represented by the lookupNant map from configuration names to antenna
counts) and fills the ant_t descriptor with the antenna count and the
derived baseline count. -/
def helper_get_nbases (lookupNant : String → ℕ) (confname : String) : ant_t :=
  ⟨(lookupNant confname : ℕ), (nbasesOfNant (lookupNant confname) : ℕ)⟩

/-- Claim C8: the baseline helper fills nbases with the number of
pairwise antenna combinations of the configuration's antenna count —
nbases = C(nant, 2) in general — so a configuration with 3 antennas
(as in the spec's ntimes = 1, nfreqs = 1, nant = 3 scenario) yields
nbases = 3. -/
theorem get_nbases_pairwise (lookupNant : String → ℕ) (confname : String)
    (h3 : lookupNant confname = 3) :
    (helper_get_nbases lookupNant confname).nant = 3 ∧
    (helper_get_nbases lookupNant confname).nbases = 3 ∧
    ∀ m : String → ℕ, ∀ s : String,
      (helper_get_nbases m s).nbases = ((m s).choose 2 : ℤ) := by
  refine ⟨by simp [helper_get_nbases, h3], by simp [helper_get_nbases, h3, nbasesOfNant], ?_⟩
  intro m s
  simp [helper_get_nbases, nbasesOfNant, Nat.choose_two_right]

/-- Witness for the baseline helper at the constant catalogue mapping
every name to 3 antennas. -/
theorem get_nbases_pairwise_witness :
    (fun _ : String => 3) "LOWBD2" = 3 ∧
    ((helper_get_nbases (fun _ => 3) "LOWBD2").nant = 3 ∧
     (helper_get_nbases (fun _ => 3) "LOWBD2").nbases = 3 ∧
     ∀ m : String → ℕ, ∀ s : String,
       (helper_get_nbases m s).nbases = ((m s).choose 2 : ℤ)) :=
  ⟨rfl, get_nbases_pairwise (fun _ => 3) "LOWBD2" rfl⟩

/-- Counterexample to claim C6: the simulation variant of gain-table
creation, arl_simulate_gaintable, is declared with exactly two
parameters — the Configuration Descriptor and the output Gain Table —
and none of its parameters points to an ARLVis, so it does not take a
Visibility Container as input. -/
theorem simulate_gaintable_takes_no_visibility :
    lookupProto "arl_simulate_gaintable" =
      some ⟨"arl_simulate_gaintable", CTy.voidT,
        [CTy.ptrTo "ARLConf" false, CTy.ptrTo "ARLGt" false]⟩ ∧
    (protoParams "arl_simulate_gaintable").all
      (fun t => !(isPtrToBase "ARLVis" t)) = true := by
  decide

/-- Claim C6 as amended: the derivation-from-observed-data variant,
arl_create_gaintable_from_blockvisibility, takes a Configuration
Descriptor and a const Visibility Container besides its output Gain
Table; the simulation variant, arl_simulate_gaintable, takes only a
Configuration Descriptor besides its output Gain Table and no
Visibility Container; and the apply operation consumes a Configuration
Descriptor, a const input Visibility Container and a Gain Table,
writing into an output Visibility Container of the input's sample
count, polarisation count and record count. -/
theorem gaintable_interface_amended :
    lookupProto "arl_create_gaintable_from_blockvisibility" =
      some ⟨"arl_create_gaintable_from_blockvisibility", CTy.voidT,
        [CTy.ptrTo "ARLConf" false, CTy.ptrTo "ARLVis" true,
         CTy.ptrTo "ARLGt" false]⟩ ∧
    lookupProto "arl_simulate_gaintable" =
      some ⟨"arl_simulate_gaintable", CTy.voidT,
        [CTy.ptrTo "ARLConf" false, CTy.ptrTo "ARLGt" false]⟩ ∧
    lookupProto "arl_apply_gaintable" =
      some ⟨"arl_apply_gaintable", CTy.voidT,
        [CTy.ptrTo "ARLConf" false, CTy.ptrTo "ARLVis" true,
         CTy.ptrTo "ARLGt" false, CTy.ptrTo "ARLVis" false]⟩ ∧
    ∀ conf visin gt,
      ((arl_apply_gaintable conf visin gt).2.nvis = visin.nvis ∧
       (arl_apply_gaintable conf visin gt).2.npol = visin.npol ∧
       (arl_apply_gaintable conf visin gt).2.data.length = visin.data.length) := by
  refine ⟨by decide, by decide, by decide, ?_⟩
  intro conf visin gt
  refine ⟨rfl, rfl, ?_⟩
  simp [arl_apply_gaintable]

/-- Claim C9: arl_predict_function_blockvis is declared with exactly
one ARLVis parameter, taken through a non-const pointer, and no
separate output visibility — its prediction is written into the passed
container in place — while arl_predict_2d takes its input container
through a const pointer and writes into a distinct non-const output
container. -/
theorem predict_blockvis_in_place :
    lookupProto "arl_predict_function_blockvis" =
      some ⟨"arl_predict_function_blockvis", CTy.voidT,
        [CTy.ptrTo "ARLConf" false, CTy.ptrTo "ARLVis" false,
         CTy.ptrTo "Image" true]⟩ ∧
    (protoParams "arl_predict_function_blockvis").filter
        (isPtrToBase "ARLVis") = [CTy.ptrTo "ARLVis" false] ∧
    lookupProto "arl_predict_2d" =
      some ⟨"arl_predict_2d", CTy.voidT,
        [CTy.ptrTo "ARLVis" true, CTy.ptrTo "Image" true,
         CTy.ptrTo "ARLVis" false]⟩ ∧
    (protoParams "arl_predict_2d").filter (isPtrToBase "ARLVis") =
      [CTy.ptrTo "ARLVis" true, CTy.ptrTo "ARLVis" false] := by
  decide
